import Mathlib

/-!
Verification of the Av1an chunk-queue module (src/Av1an/chunk_queue.py) and
the VMAF score pipeline (src/av1an/vmaf.py), shallowly embedded in Lean.

Paths are modelled as POSIX strings, command token sequences as `List String`
(numeric tokens rendered with `toString`, matching how they print into the
final command line), Python exceptions as `Except QErr`, and the persisted
`chunks.json` document as the list of serialized chunk records it contains.
External collaborators (frame probing, encoder file extensions, pass-command
generation, the segmenter's output directory listing, the done-record key
set) enter as explicit parameters.
-/

namespace Av1anSpec

/-- Error outcomes of queue construction and resume.
`invalidBoundary` models the `assert frame_end > frame_start` failures,
`nameError` the unbound `split_locs_fl` in `create_video_queue_select`,
`noSegmentsFound` the `terminate()` call in `create_video_queue_segment`,
`corruptQueueState` a missing `chunks.json` on resume. -/
inductive QErr where
  | invalidBoundary
  | nameError
  | noSegmentsFound
  | corruptQueueState
deriving Repr, DecidableEq

/-- The `chunk_method` CLI option (keys of `chunk_method_gen`). -/
inductive ChunkMethod where
  | segment
  | select
  | vs_ffms2
deriving Repr, DecidableEq

/-- The fields of `Args` that chunk_queue.py reads. -/
structure Args where
  temp : String
  input : String
  chunk_method : ChunkMethod
  encoder : String
  pix_format : List String
deriving Repr, DecidableEq

/-- A chunk record.  Modelled from the spec: the `Chunk` class (chunk.py) is
not under src/; the fields follow the constructor calls
`Chunk(args.temp, index, ffmpeg_gen_cmd, extension, size, frames)` in
chunk_queue.py plus the `passCommands` attached right after construction
(spec §3). -/
structure Chunk where
  temp : String
  index : Nat
  ffmpeg_gen_cmd : List String
  extension : String
  size : Nat
  frames : Nat
  pass_cmds : List (List String)
deriving Repr, DecidableEq

/-- Left-pad the decimal rendering of `n` with zeroes to width `w`. -/
def padNum (w n : Nat) : String :=
  let s := toString n
  String.mk (List.replicate (w - s.length) (Char.ofNat 48)) ++ s

/-- Modelled from the spec: a chunk's `name` is "derived deterministically
from `index`, e.g. zero-padded" (spec §3); chunk.py is not under src/. -/
def Chunk.name (c : Chunk) : String := padNum 5 c.index

/-- One serialized chunk record inside the persisted `chunks.json` document.
Modelled from the spec: `Chunk.to_dict` / `Chunk.create_from_dict` live in
chunk.py which is not under src/; the persisted fields are "index,
frame-source command tokens, pass-command token sequences, extension, size
metric, frame count" (spec §6), and `temp` is re-supplied by the loader. -/
structure ChunkDict where
  index : Nat
  ffmpeg_gen_cmd : List String
  extension : String
  size : Nat
  frames : Nat
  pass_cmds : List (List String)
deriving Repr, DecidableEq

/-- Modelled from the spec (§6): serialization of one chunk. -/
def Chunk.to_dict (c : Chunk) : ChunkDict :=
  ⟨c.index, c.ffmpeg_gen_cmd, c.extension, c.size, c.frames, c.pass_cmds⟩

/-- Modelled from the spec (§4.3, §6): deserialization of one chunk, with the
working directory supplied by the caller as in `Chunk.create_from_dict(cd, temp)`. -/
def Chunk.create_from_dict (cd : ChunkDict) (temp : String) : Chunk :=
  ⟨temp, cd.index, cd.ffmpeg_gen_cmd, cd.extension, cd.size, cd.frames, cd.pass_cmds⟩

/-- A file in the `temp/split` directory listing, together with the results
of the external probes applied to it (`file.stat().st_size` and
`frame_probe(file)`). -/
structure SegFile where
  path : String
  stem : String
  suffix : String
  st_size : Nat
  frames : Nat
deriving Repr, DecidableEq

/-- External collaborators of chunk_queue.py, passed explicitly:
`frame_probe_input` is `frame_probe(args.input)`, `fext` is
`get_file_extension_for_encoder`, and `pg` is what
`chunk.generate_pass_cmds(args)` attaches to a given chunk. -/
structure Ext where
  frame_probe_input : Nat
  fext : String → String
  pg : Chunk → List (List String)

/-- `chunk.generate_pass_cmds(args)`: attach pass commands to a fresh chunk. -/
def attach_pass (pg : Chunk → List (List String)) (c : Chunk) : Chunk :=
  { c with pass_cmds := pg c }

/-- Left-to-right effectful map: a list comprehension whose body may raise. -/
def mapME {ε α β : Type} (f : α → Except ε β) : List α → Except ε (List β)
  | [] => .ok []
  | a :: l =>
    match f a with
    | .error e => .error e
    | .ok b =>
      match mapME f l with
      | .error e => .error e
      | .ok bs => .ok (b :: bs)

/-- `zip(xs, xs[1:])`: pair up adjacent members of a list. -/
def adjacentPairs (l : List Nat) : List (Nat × Nat) :=
  l.zip l.tail

/-- The `-vf` filter string built by `create_select_chunk`
(`fe` is the already-decremented inclusive end). -/
def select_vf (frame_start fe : Nat) : String :=
  "select=between(n\\," ++ toString frame_start ++ "\\," ++ toString fe
    ++ "),setpts=PTS-STARTPTS"

/-- `create_vsffms2_chunk(args, index, load_script, frame_start, frame_end)`.
The `assert frame_end > frame_start` is the `invalidBoundary` error. -/
def create_vsffms2_chunk (E : Ext) (args : Args) (index : Nat) (load_script : String)
    (frame_start frame_end : Nat) : Except QErr Chunk :=
  if frame_end > frame_start then
    let frames := frame_end - frame_start
    let fe := frame_end - 1
    let ffmpeg_gen_cmd : List String :=
      ["vspipe", load_script, "-y", "-", "-s", toString frame_start, "-e", toString fe]
    let extension := E.fext args.encoder
    let size := frames
    .ok (attach_pass E.pg ⟨args.temp, index, ffmpeg_gen_cmd, extension, size, frames, []⟩)
  else
    .error .invalidBoundary

/-- `create_select_chunk(args, index, src_path, frame_start, frame_end)`. -/
def create_select_chunk (E : Ext) (args : Args) (index : Nat) (src_path : String)
    (frame_start frame_end : Nat) : Except QErr Chunk :=
  if frame_end > frame_start then
    let frames := frame_end - frame_start
    let fe := frame_end - 1
    let ffmpeg_gen_cmd : List String :=
      ["ffmpeg", "-y", "-hide_banner", "-loglevel", "error", "-i", src_path,
        "-vf", select_vf frame_start fe]
        ++ args.pix_format ++ ["-bufsize", "50000K", "-f", "yuv4mpegpipe", "-"]
    let extension := E.fext args.encoder
    let size := frames
    .ok (attach_pass E.pg ⟨args.temp, index, ffmpeg_gen_cmd, extension, size, frames, []⟩)
  else
    .error .invalidBoundary

/-- `create_chunk_from_segment(args, index, file)`: total, no assert. -/
def create_chunk_from_segment (E : Ext) (args : Args) (index : Nat) (file : SegFile) :
    Chunk :=
  let ffmpeg_gen_cmd : List String :=
    ["ffmpeg", "-y", "-hide_banner", "-loglevel", "error", "-i", file.path]
      ++ args.pix_format ++ ["-bufsize", "50000K", "-f", "yuv4mpegpipe", "-"]
  attach_pass E.pg
    ⟨args.temp, index, ffmpeg_gen_cmd, E.fext args.encoder, file.st_size, file.frames, []⟩

/-- The boundary list built by `create_video_queue_vsffms2`:
`split_locs_fl = [0] + split_locations + [last_frame]`, then adjacent pairs. -/
def vsffms2_boundaries (last_frame : Nat) (split_locations : List Nat) :
    List (Nat × Nat) :=
  adjacentPairs (0 :: (split_locations ++ [last_frame]))

/-- The boundary list built by `create_video_queue_select`.  The source only
assigns `split_locs_fl = [0] + split_locations` inside
`if 0 not in split_locations:`; when `0 ∈ split_locations` the later
`zip(split_locs_fl, split_locs_fl[1:])` hits an unbound local (`nameError`).
The second `if` rebinds `split_locations` to `split_locations + [last_frame]`
but that rebinding is never read, so `last_frame` never reaches the zipped
list. -/
def select_boundaries (last_frame : Nat) (split_locations : List Nat) :
    Except QErr (List (Nat × Nat)) :=
  if 0 ∈ split_locations then .error .nameError
  else .ok (adjacentPairs (0 :: split_locations))

/-- `args.temp / 'split' / 'loadscript.vpy'`. -/
def load_script_path (args : Args) : String :=
  args.temp ++ "/split/loadscript.vpy"

/-- `create_video_queue_vsffms2(args, split_locations)` with
`frame_probe(args.input)` supplied through `E`. -/
def create_video_queue_vsffms2 (E : Ext) (args : Args) (split_locations : List Nat) :
    Except QErr (List Chunk) :=
  let last_frame := E.frame_probe_input
  let chunk_boundaries := vsffms2_boundaries last_frame split_locations
  mapME
    (fun icb =>
      create_vsffms2_chunk E args icb.1 (load_script_path args) icb.2.1 icb.2.2)
    chunk_boundaries.enum

/-- `create_video_queue_select(args, split_locations)`. -/
def create_video_queue_select (E : Ext) (args : Args) (split_locations : List Nat) :
    Except QErr (List Chunk) :=
  match select_boundaries E.frame_probe_input split_locations with
  | .error e => .error e
  | .ok chunk_boundaries =>
    mapME
      (fun icb => create_select_chunk E args icb.1 args.input icb.2.1 icb.2.2)
      chunk_boundaries.enum

/-- The lexicographic-by-(key, original position) relation that models a
stable Python sort on key `k`: this is exactly sorting the `enumerate`d
list by the pair (key, index). -/
def keyRel {α κ : Type} [LinearOrder κ] (k : α → κ) (a b : Nat × α) : Prop :=
  k a.2 < k b.2 ∨ (k a.2 = k b.2 ∧ a.1 ≤ b.1)

instance {α κ : Type} [LinearOrder κ] (k : α → κ) : DecidableRel (keyRel k) :=
  fun a b => inferInstanceAs (Decidable (_ ∨ _))

instance {α κ : Type} [LinearOrder κ] (k : α → κ) : IsTotal (Nat × α) (keyRel k) where
  total a b := by
    rcases lt_trichotomy (k a.2) (k b.2) with h | h | h
    · exact Or.inl (Or.inl h)
    · rcases Nat.le_total a.1 b.1 with h1 | h1
      · exact Or.inl (Or.inr ⟨h, h1⟩)
      · exact Or.inr (Or.inr ⟨h.symm, h1⟩)
    · exact Or.inr (Or.inl h)

instance {α κ : Type} [LinearOrder κ] (k : α → κ) : IsTrans (Nat × α) (keyRel k) where
  trans a b c hab hbc := by
    rcases hab with hab | ⟨hab, hab2⟩
    · rcases hbc with hbc | ⟨hbc, _⟩
      · exact Or.inl (hab.trans hbc)
      · exact Or.inl (hab.trans_eq hbc)
    · rcases hbc with hbc | ⟨hbc, hbc2⟩
      · exact Or.inl (hab.trans_lt hbc)
      · exact Or.inr ⟨hab.trans hbc, Nat.le_trans hab2 hbc2⟩

/-- Model of CPython's stable `list.sort(key=k)`: sort the `enumerate`d list
lexicographically by (key, original index), then drop the indices. -/
def pySortKey {α κ : Type} [LinearOrder κ] (k : α → κ) (l : List α) : List α :=
  (List.insertionSort (keyRel k) l.enum).map Prod.snd

/-- Model of `chunk_queue.sort(key=lambda c: c.size, reverse=True)`:
a stable descending sort is the stable ascending sort for the dual order. -/
def pySortDesc (l : List Chunk) : List Chunk :=
  pySortKey (fun c => OrderDual.toDual c.size) l

/-- CPython compares `str` values lexicographically by code points; the sort
key `p.stem` is modelled as the stem's code-point sequence, ordered by the
lexicographic order on `List Nat`. -/
def stemKey (s : String) : List Nat := s.data.map Char.toNat

/-- The `queue_files` of `create_video_queue_segment`: the `.mkv` entries of
the `temp/split` listing, stable-sorted by `p.stem`. -/
def segment_queue_files (files : List SegFile) : List SegFile :=
  pySortKey (fun f : SegFile => stemKey f.stem)
    (files.filter (fun f => f.suffix == ".mkv"))

/-- `create_video_queue_segment(args, split_locations)`.  The side-effecting
`segment(...)` call only populates `temp/split`; its resulting directory
listing is the `files` parameter. -/
def create_video_queue_segment (E : Ext) (args : Args) (files : List SegFile) :
    Except QErr (List Chunk) :=
  let queue_files := segment_queue_files files
  if queue_files.length == 0 then
    .error .noSegmentsFound
  else
    .ok (queue_files.enum.map (fun p => create_chunk_from_segment E args p.1 p.2))

/-- The `chunk_method_gen` dispatch table applied to `args.chunk_method`. -/
def chunk_method_gen (E : Ext) (args : Args) (files : List SegFile)
    (split_locations : List Nat) : Except QErr (List Chunk) :=
  match args.chunk_method with
  | .segment => create_video_queue_segment E args files
  | .select => create_video_queue_select E args split_locations
  | .vs_ffms2 => create_video_queue_vsffms2 E args split_locations

/-- `create_encoding_queue(args, split_locations)`: dispatch, then
`chunk_queue.sort(key=lambda c: c.size, reverse=True)`. -/
def create_encoding_queue (E : Ext) (args : Args) (files : List SegFile)
    (split_locations : List Nat) : Except QErr (List Chunk) :=
  match chunk_method_gen E args files split_locations with
  | .error e => .error e
  | .ok chunk_queue => .ok (pySortDesc chunk_queue)

/-- `save_chunk_queue(temp, chunk_queue)`: the `chunks.json` document written
is the list of serialized records. -/
def save_chunk_queue (chunk_queue : List Chunk) : List ChunkDict :=
  chunk_queue.map Chunk.to_dict

/-- `read_chunk_queue(temp)` applied to a present `chunks.json` document. -/
def read_chunk_queue (temp : String) (doc : List ChunkDict) : List Chunk :=
  doc.map (fun cd => Chunk.create_from_dict cd temp)

/-- `load_or_gen_chunk_queue(args, resuming, split_locations)`.  The state of
`temp/chunks.json` is threaded explicitly as `store` (in and out);
`done` is `read_done_data(args.temp)['done'].keys()`.  A missing document on
resume is the fatal open failure (`corruptQueueState`). -/
def load_or_gen_chunk_queue (E : Ext) (args : Args) (files : List SegFile)
    (split_locations : List Nat) (resuming : Bool) (store : Option (List ChunkDict))
    (done : List String) : Except QErr (List Chunk × Option (List ChunkDict)) :=
  if resuming then
    match store with
    | none => .error .corruptQueueState
    | some doc =>
      let chunk_queue := read_chunk_queue args.temp doc
      .ok (chunk_queue.filter (fun c => !(done.contains (Chunk.name c))), store)
  else
    match create_encoding_queue E args files split_locations with
    | .error e => .error e
    | .ok chunk_queue => .ok (chunk_queue, some (save_chunk_queue chunk_queue))

/-- Modelled from the spec (§8, §3): the output pairs partition `[0, F)` —
nonempty, first starts at 0, last ends at `F`, adjacent pairs share their
boundary index, and every pair is increasing. -/
def isBoundaryPartChain : List (Nat × Nat) → Bool
  | [] => true
  | [_] => true
  | a :: b :: t => (a.2 == b.1) && isBoundaryPartChain (b :: t)

/-- Modelled from the spec (§8): decidable check that `ps` partitions `[0, F)`. -/
def isBoundaryPartitionB (F : Nat) (ps : List (Nat × Nat)) : Bool :=
  !ps.isEmpty
    && (match ps.head? with | some p => p.1 == 0 | none => false)
    && (match ps.getLast? with | some p => p.2 == F | none => false)
    && isBoundaryPartChain ps
    && ps.all (fun p => p.1 < p.2)

/-- A queue-construction result assigns each chunk its 0-based emission index. -/
def IndexedFrom (r : Except QErr (List Chunk)) : Prop :=
  ∀ q, r = .ok q → ∀ i (hi : i < q.length), (q.get ⟨i, hi⟩).index = i

/-- A single-quote character, used to build shell-quoting strings. -/
def sq : String := String.singleton (Char.ofNat 39)

/-- The character class of CPython's `shlex._find_unsafe` complement:
ASCII `\w` (alphanumerics and underscore) plus `@ % + = : , . slash -`.
A string made only of these characters needs no quoting. -/
def shlexSafe (c : Char) : Bool :=
  c.isAlphanum || "_@%+=:,./-".toList.contains c

/-- CPython's `shlex.quote` (stdlib, modelled from its reference behavior):
empty strings become a pair of single quotes; strings of safe characters
pass through; anything else is single-quoted with embedded single quotes
rewritten to quote-dquote-quote-dquote-quote. -/
def shlexQuote (s : String) : String :=
  if s = "" then sq ++ sq
  else if s.toList.all shlexSafe then s
  else sq ++ s.replace sq (sq ++ "\"" ++ sq ++ "\"" ++ sq) ++ sq

/-- The VMAF wrapper object after `VMAF.__init__` ran: the four derived
option-string fields. -/
structure VMAF where
  n_threads : String
  model : String
  res : String
  vmaf_filter : String
deriving Repr, DecidableEq

/-- `VMAF.__init__(n_threads, model, res, vmaf_filter)` — `0`, `None` and the
empty string are all falsy in Python, so optional inputs are `Option`s with
`none` for every falsy value. -/
def VMAF.init (n_threads : Nat) (model res vmaf_filter : Option String) : VMAF where
  n_threads := if n_threads ≠ 0 then ":n_threads=" ++ toString n_threads else ""
  model := match model with | some m => ":model_path=" ++ m | none => ""
  res := res.getD "1920x1080"
  vmaf_filter := match vmaf_filter with | some f => f ++ "," | none => ""

/-- The default `fl_path` of `VMAF.call_vmaf`:
`(chunk.temp / "split") / f"{chunk.name}.json"`, as a POSIX string. -/
def default_fl_path (chunk : Chunk) : String :=
  chunk.temp ++ "/split/" ++ Chunk.name chunk ++ ".json"

/-- The `select=...` fragment of the reference stream filter:
empty when `vmaf_rate` is falsy (`None` or `0`); `divFmt r` stands for
Python's decimal rendering of the float `1 / vmaf_rate`. -/
def vmaf_select_str (divFmt : Nat → String) : Option Nat → String
  | none => ""
  | some 0 => ""
  | some r =>
    "select=not(mod(n\\," ++ toString r ++ ")),setpts=" ++ divFmt r ++ "*PTS,"

/-- The `[0:v]...[distorted];` part of the filter graph. -/
def VMAF.distorted_str (v : VMAF) : String :=
  "[0:v]scale=" ++ v.res
    ++ ":flags=bicubic:force_original_aspect_ratio=decrease,setpts=PTS-STARTPTS[distorted];"

/-- The `[1:v]...[ref];` part of the filter graph. -/
def VMAF.ref_str (v : VMAF) (sel : String) : String :=
  "[1:v]" ++ sel ++ v.vmaf_filter ++ "scale=" ++ v.res
    ++ ":flags=bicubic:force_original_aspect_ratio=decrease,setpts=PTS-STARTPTS[ref];"

/-- Everything of the `libvmaf=...` clause up to and including `log_path=`. -/
def vmaf_log_pre : String :=
  "[distorted][ref]libvmaf=log_fmt=" ++ sq ++ "json" ++ sq
    ++ ":eof_action=endall:log_path="

/-- The `[distorted][ref]libvmaf=...` clause: the log path is embedded through
`shlex.quote`. -/
def VMAF.vmaf_filter_str (v : VMAF) (fl : String) : String :=
  vmaf_log_pre ++ shlexQuote fl ++ v.model ++ v.n_threads

/-- The observable outcome of `VMAF.call_vmaf`: the downstream scoring command
and the returned log path.  (Process spawning itself is outside the model;
the upstream command is `chunk.ffmpeg_gen_cmd`, piped into this command's
standard input.) -/
structure VmafCall where
  cmd : List String
  ret : String
deriving Repr, DecidableEq

/-- `VMAF.call_vmaf(chunk, encoded, vmaf_rate, fl_path)`. -/
def VMAF.call_vmaf (v : VMAF) (divFmt : Nat → String) (chunk : Chunk)
    (encoded : String) (vmaf_rate : Option Nat) (fl_path : Option String) : VmafCall :=
  let fl := fl_path.getD (default_fl_path chunk)
  let cmd_in : List String :=
    ["ffmpeg", "-loglevel", "error", "-y", "-thread_queue_size", "1024",
      "-hide_banner", "-r", "60", "-i", encoded, "-r", "60", "-i", "-"]
  let sel := vmaf_select_str divFmt vmaf_rate
  { cmd := cmd_in ++
      ["-filter_complex",
        v.distorted_str ++ VMAF.ref_str v sel ++ VMAF.vmaf_filter_str v fl,
        "-f", "null", "-"]
    ret := fl }

/-! Concrete instantiations used by counterexamples and witnesses. -/

/-- Example externals: a 100-frame source, fixed extension, no pass commands. -/
def extEx100 : Ext := ⟨100, fun _ => ".ivf", fun _ => []⟩

/-- Example externals for a 0-frame (empty/unprobeable) source. -/
def extEx0 : Ext := ⟨0, fun _ => ".ivf", fun _ => []⟩

/-- Example `Args` configured for the select strategy. -/
def argsSel : Args := ⟨"/tmp/.temp", "/video.mkv", .select, "aom", ["-pix_fmt", "yuv420p"]⟩

/-- Example `Args` configured for the vs_ffms2 strategy. -/
def argsVs : Args := ⟨"/tmp/.temp", "/video.mkv", .vs_ffms2, "aom", ["-pix_fmt", "yuv420p"]⟩

/-- Example `Args` configured for the segment strategy. -/
def argsSeg : Args := ⟨"/tmp/.temp", "/video.mkv", .segment, "aom", ["-pix_fmt", "yuv420p"]⟩

/-- Example segment-directory listing with two `.mkv` files (out of stem
order) and one stray file. -/
def segFilesEx : List SegFile :=
  [⟨"/tmp/.temp/split/00001.mkv", "00001", ".mkv", 700, 60⟩,
   ⟨"/tmp/.temp/split/00000.mkv", "00000", ".mkv", 900, 40⟩,
   ⟨"/tmp/.temp/split/notes.txt", "notes", ".txt", 10, 0⟩]

/-- The pre-sort queue the vs_ffms2 builder produces for `F = 100`,
`S = [30, 70]` (extracted by evaluation; used by the C3 witness). -/
def c3qEx : List Chunk :=
  (create_video_queue_vsffms2 extEx100 argsVs [30, 70]).toOption.getD []

/-- The queue the vs_ffms2 builder produces for `F = 100`, `S = [30]`
(extracted by evaluation; used by the C10 witness). -/
def c10qVsEx : List Chunk :=
  (create_video_queue_vsffms2 extEx100 argsVs [30]).toOption.getD []

/-- The queue the select builder produces for `F = 100`, `S = [30]`
(extracted by evaluation; used by the C10 witness). -/
def c10qSelEx : List Chunk :=
  (create_video_queue_select extEx100 argsSel [30]).toOption.getD []

/-- The queue the segment builder produces for `segFilesEx`
(extracted by evaluation; used by the C10 witness). -/
def c10qSegEx : List Chunk :=
  (create_video_queue_segment extEx100 argsSeg segFilesEx).toOption.getD []

/-- An example queue with a path-like temp directory, for the round-trip
witness. -/
def c5qEx : List Chunk :=
  [⟨"/tmp/.temp", 0, ["vspipe", "/tmp/.temp/split/loadscript.vpy", "-y", "-",
      "-s", "0", "-e", "29"], ".ivf", 30, 30, [["aomenc", "--end-usage=q"]]⟩,
   ⟨"/tmp/.temp", 1, ["vspipe", "/tmp/.temp/split/loadscript.vpy", "-y", "-",
      "-s", "30", "-e", "99"], ".ivf", 70, 70, []⟩]

/-! Helper lemmas about the stable sort model. -/

theorem pySortKey_perm {α κ : Type} [LinearOrder κ] (k : α → κ) (l : List α) :
    List.Perm (pySortKey k l) l := by
  have h := (List.perm_insertionSort (keyRel k) l.enum).map Prod.snd
  rwa [List.enum_map_snd] at h

theorem pySortKey_sorted {α κ : Type} [LinearOrder κ] (k : α → κ) (l : List α) :
    List.Pairwise (fun a b => k a ≤ k b) (pySortKey k l) := by
  have hs : List.Pairwise (keyRel k) (List.insertionSort (keyRel k) l.enum) :=
    List.sorted_insertionSort (keyRel k) l.enum
  refine List.pairwise_map.mpr (hs.imp ?_)
  intro a b hab
  rcases hab with h | ⟨h, _⟩
  · exact le_of_lt h
  · exact le_of_eq h

theorem pySortKey_stable {α κ : Type} [LinearOrder κ] (k : α → κ) (l : List α)
    (p : α → Bool) (hp : ∀ a b, p a = true → p b = true → k a = k b) :
    (pySortKey k l).filter p = l.filter p := by
  have hE2 : List.Pairwise (keyRel k) (List.insertionSort (keyRel k) l.enum) :=
    List.sorted_insertionSort (keyRel k) l.enum
  have hperm : List.Perm ((List.insertionSort (keyRel k) l.enum).filter (p ∘ Prod.snd))
      (l.enum.filter (p ∘ Prod.snd)) :=
    (List.perm_insertionSort (keyRel k) l.enum).filter (p ∘ Prod.snd)
  have henum : List.Pairwise (fun a b : Nat × α => a.1 < b.1) l.enum := by
    have h1 : List.Pairwise (· < ·) (l.enum.map Prod.fst) := by
      rw [List.enum_map_fst]
      exact List.pairwise_lt_range l.length
    exact List.pairwise_map.mp h1
  have hB : List.Pairwise (fun a b : Nat × α => a.1 < b.1)
      (l.enum.filter (p ∘ Prod.snd)) :=
    List.Pairwise.sublist (List.filter_sublist _) henum
  have hA : List.Pairwise (keyRel k)
      ((List.insertionSort (keyRel k) l.enum).filter (p ∘ Prod.snd)) :=
    List.Pairwise.sublist (List.filter_sublist _) hE2
  have hAle : List.Pairwise (fun a b : Nat × α => a.1 ≤ b.1)
      ((List.insertionSort (keyRel k) l.enum).filter (p ∘ Prod.snd)) := by
    refine List.Pairwise.imp_of_mem ?_ hA
    intro a b ha hb hab
    have ha2 : (p ∘ Prod.snd) a = true := List.of_mem_filter ha
    have hb2 : (p ∘ Prod.snd) b = true := List.of_mem_filter hb
    rcases hab with h | ⟨_, h⟩
    · exact absurd (hp a.2 b.2 ha2 hb2) (ne_of_lt h)
    · exact h
  have hnodupB : ((l.enum.filter (p ∘ Prod.snd)).map Prod.fst).Nodup := by
    have hsub : List.Sublist ((l.enum.filter (p ∘ Prod.snd)).map Prod.fst)
        (l.enum.map Prod.fst) :=
      (List.filter_sublist _).map Prod.fst
    rw [List.enum_map_fst] at hsub
    exact hsub.nodup (List.nodup_range _)
  have hnodupA : (((List.insertionSort (keyRel k) l.enum).filter
      (p ∘ Prod.snd)).map Prod.fst).Nodup :=
    ((hperm.map Prod.fst).nodup_iff).mpr hnodupB
  have hAne : List.Pairwise (fun a b : Nat × α => a.1 ≠ b.1)
      ((List.insertionSort (keyRel k) l.enum).filter (p ∘ Prod.snd)) := by
    have := List.pairwise_map.mp hnodupA
    exact this
  have hAlt : List.Pairwise (fun a b : Nat × α => a.1 < b.1)
      ((List.insertionSort (keyRel k) l.enum).filter (p ∘ Prod.snd)) :=
    (hAle.and hAne).imp (fun h => lt_of_le_of_ne h.1 h.2)
  haveI : IsAntisymm (Nat × α) (fun a b : Nat × α => a.1 < b.1) :=
    ⟨fun a b h1 h2 => absurd (Nat.lt_trans h1 h2) (Nat.lt_irrefl _)⟩
  have hAB : (List.insertionSort (keyRel k) l.enum).filter (p ∘ Prod.snd) =
      l.enum.filter (p ∘ Prod.snd) :=
    List.eq_of_perm_of_sorted hperm hAlt hB
  calc (pySortKey k l).filter p
      = ((List.insertionSort (keyRel k) l.enum).filter (p ∘ Prod.snd)).map Prod.snd :=
        List.filter_map Prod.snd (List.insertionSort (keyRel k) l.enum)
    _ = (l.enum.filter (p ∘ Prod.snd)).map Prod.snd := by rw [hAB]
    _ = (l.enum.map Prod.snd).filter p := (List.filter_map Prod.snd l.enum).symm
    _ = l.filter p := by rw [List.enum_map_snd]

theorem mapME_ok_length {ε α β : Type} {f : α → Except ε β} :
    ∀ {l : List α} {q : List β}, mapME f l = .ok q → q.length = l.length := by
  intro l
  induction l with
  | nil =>
    intro q h
    simp only [mapME, Except.ok.injEq] at h
    subst h
    rfl
  | cons a l ih =>
    intro q h
    cases hfa : f a with
    | error e =>
      simp only [mapME, hfa] at h
      exact Except.noConfusion h
    | ok b =>
      cases hml : mapME f l with
      | error e =>
        simp only [mapME, hfa, hml] at h
        exact Except.noConfusion h
      | ok bs =>
        simp only [mapME, hfa, hml, Except.ok.injEq] at h
        subst h
        simp [ih hml]

theorem mapME_ok_get {ε α β : Type} {f : α → Except ε β} :
    ∀ {l : List α} {q : List β}, mapME f l = .ok q →
      ∀ i (hi : i < l.length) (hq : i < q.length),
        f (l.get ⟨i, hi⟩) = .ok (q.get ⟨i, hq⟩) := by
  intro l
  induction l with
  | nil =>
    intro q h i hi hq
    exact absurd hi (Nat.not_lt_zero i)
  | cons a l ih =>
    intro q h i hi hq
    cases hfa : f a with
    | error e =>
      simp only [mapME, hfa] at h
      exact Except.noConfusion h
    | ok b =>
      cases hml : mapME f l with
      | error e =>
        simp only [mapME, hfa, hml] at h
        exact Except.noConfusion h
      | ok bs =>
        simp only [mapME, hfa, hml, Except.ok.injEq] at h
        subst h
        cases i with
        | zero => exact hfa
        | succ j => exact ih hml j (Nat.lt_of_succ_lt_succ hi) (Nat.lt_of_succ_lt_succ hq)

theorem create_vsffms2_chunk_index {E : Ext} {args : Args} {i : Nat} {ls : String}
    {s e : Nat} {c : Chunk} (h : create_vsffms2_chunk E args i ls s e = .ok c) :
    c.index = i := by
  unfold create_vsffms2_chunk at h
  split at h
  · injection h with h
    subst h
    rfl
  · exact Except.noConfusion h

theorem create_select_chunk_index {E : Ext} {args : Args} {i : Nat} {src : String}
    {s e : Nat} {c : Chunk} (h : create_select_chunk E args i src s e = .ok c) :
    c.index = i := by
  unfold create_select_chunk at h
  split at h
  · injection h with h
    subst h
    rfl
  · exact Except.noConfusion h

theorem indexedFrom_mapME_enum {g : Nat → Nat × Nat → Except QErr Chunk}
    (hg : ∀ i b c, g i b = .ok c → c.index = i) (l : List (Nat × Nat)) :
    IndexedFrom (mapME (fun p => g p.1 p.2) l.enum) := by
  intro q h i hi
  have hlen := mapME_ok_length h
  have hi2 : i < l.enum.length := hlen ▸ hi
  have hfi := mapME_ok_get h i hi2 hi
  have he : l.enum.get ⟨i, hi2⟩ = (i, l.get ⟨i, by simpa using hi2⟩) := by
    simp [List.get_eq_getElem, List.getElem_enum]
  rw [he] at hfi
  exact hg i _ _ hfi

/-! Claim theorems. -/

/-- C1: the select queue builder does not produce a partition of `[0, F)`.
At `F = 100`, `S = [30, 70]` (the spec's own worked example) the zipped
boundary list is `[(0, 30), (30, 70)]`, whose last pair ends at 70, not 100,
because `split_locs_fl` never receives `last_frame`; and at `S = []` the
builder produces no pair at all instead of the required single `(0, F)`. -/
theorem c1_select_boundaries_bug :
    select_boundaries 100 [30, 70] = .ok [(0, 30), (30, 70)] ∧
    isBoundaryPartitionB 100 [(0, 30), (30, 70)] = false ∧
    select_boundaries 100 [] = .ok [] ∧
    isBoundaryPartitionB 100 [(0, 100)] = true := by
  exact ⟨rfl, rfl, rfl, rfl⟩

/-- C2: with the select strategy at `F = 100`, `S = [30, 70]`, the assembled
chunks' frame counts sum to 70, not to the probed total 100. -/
theorem c2_select_frame_sum_bug :
    (create_video_queue_select extEx100 argsSel [30, 70]).map
        (fun q => (q.map Chunk.frames).sum) = .ok 70 ∧
    extEx100.frame_probe_input = 100 ∧ (70 : Nat) ≠ 100 := by
  refine ⟨rfl, rfl, by decide⟩

/-- C8: the chunk builders do fail with the boundary assert whenever
`end ≤ start` (last two conjuncts), and the vs_ffms2 builder fails for
`F = 0`; but the select builder at `F = 0`, `S = []` returns an empty queue
with no error instead of failing. -/
theorem c8_boundary_error_behavior :
    create_video_queue_select extEx0 argsSel [] = .ok [] ∧
    extEx0.frame_probe_input = 0 ∧
    create_video_queue_vsffms2 extEx0 argsVs [] = .error QErr.invalidBoundary ∧
    create_select_chunk extEx100 argsSel 0 "/video.mkv" 5 5 =
      .error QErr.invalidBoundary ∧
    create_vsffms2_chunk extEx100 argsVs 0 "loadscript.vpy" 7 3 =
      .error QErr.invalidBoundary := by
  exact ⟨rfl, rfl, rfl, rfl, rfl⟩

/-- C4: on resume, `load_or_gen_chunk_queue` returns exactly the persisted
queue minus the done names, as a filter (hence in the persisted relative
order, witnessed by the sublist conjunct), and hands back the stored
document unchanged. -/
theorem c4_resume_filters_without_rewrite (E : Ext) (args : Args)
    (files : List SegFile) (split_locations : List Nat) (doc : List ChunkDict)
    (done : List String) :
    load_or_gen_chunk_queue E args files split_locations true (some doc) done =
      .ok ((read_chunk_queue args.temp doc).filter
        (fun c => !(done.contains (Chunk.name c))), some doc) ∧
    List.Sublist
      ((read_chunk_queue args.temp doc).filter
        (fun c => !(done.contains (Chunk.name c))))
      (read_chunk_queue args.temp doc) := by
  exact ⟨rfl, List.filter_sublist _⟩

/-- C5: reading the persisted document written for a queue returns the queue
field-for-field, provided every chunk belongs to the working directory it is
saved under (the loader re-supplies `temp` from its argument). -/
theorem c5_store_round_trip (temp : String) (q : List Chunk)
    (h : ∀ c ∈ q, c.temp = temp) :
    read_chunk_queue temp (save_chunk_queue q) = q := by
  induction q with
  | nil => rfl
  | cons c cs ih =>
    have hc : c.temp = temp := h c (List.mem_cons_self c cs)
    have ihh := ih (fun x hx => h x (List.mem_cons_of_mem c hx))
    show Chunk.create_from_dict (Chunk.to_dict c) temp ::
        read_chunk_queue temp (save_chunk_queue cs) = c :: cs
    rw [ihh]
    cases c with
    | mk t i cmd ext sz fr pc =>
      cases hc
      rfl

/-- C5 witness: a concrete two-chunk queue round-trips through the store. -/
theorem c5_store_round_trip_witness :
    (∀ c ∈ c5qEx, c.temp = "/tmp/.temp") ∧
    read_chunk_queue "/tmp/.temp" (save_chunk_queue c5qEx) = c5qEx :=
  ⟨by decide, c5_store_round_trip "/tmp/.temp" c5qEx (by decide)⟩

/-- C6: for any boundary pair with `end > start`, both chunk builders
succeed, set `frameCount = end - start`, and embed exactly `end - 1` as the
end value of the generated frame-source command (token 7 of the vspipe
command; the between() bound inside token 8 of the ffmpeg command). -/
theorem c6_end_conversion (E : Ext) (args : Args) (i : Nat) (ls src : String)
    (s e : Nat) (h : s < e) :
    (∃ c, create_vsffms2_chunk E args i ls s e = .ok c ∧
      c.frames = e - s ∧
      c.ffmpeg_gen_cmd.get? 7 = some (toString (e - 1)) ∧
      c.ffmpeg_gen_cmd =
        ["vspipe", ls, "-y", "-", "-s", toString s, "-e", toString (e - 1)]) ∧
    (∃ c, create_select_chunk E args i src s e = .ok c ∧
      c.frames = e - s ∧
      c.ffmpeg_gen_cmd.get? 8 = some (select_vf s (e - 1)) ∧
      select_vf s (e - 1) =
        "select=between(n\\," ++ toString s ++ "\\," ++ toString (e - 1)
          ++ "),setpts=PTS-STARTPTS") := by
  constructor
  · refine ⟨attach_pass E.pg ⟨args.temp, i,
      ["vspipe", ls, "-y", "-", "-s", toString s, "-e", toString (e - 1)],
      E.fext args.encoder, e - s, e - s, []⟩, ?_, rfl, rfl, rfl⟩
    unfold create_vsffms2_chunk
    rw [if_pos h]
  · refine ⟨attach_pass E.pg ⟨args.temp, i,
      ["ffmpeg", "-y", "-hide_banner", "-loglevel", "error", "-i", src,
        "-vf", select_vf s (e - 1)]
        ++ args.pix_format ++ ["-bufsize", "50000K", "-f", "yuv4mpegpipe", "-"],
      E.fext args.encoder, e - s, e - s, []⟩, ?_, rfl, rfl, rfl⟩
    unfold create_select_chunk
    rw [if_pos h]

/-- C6 witness: the boundary pair `(30, 70)` yields 40-frame chunks whose
commands embed end value 69. -/
theorem c6_end_conversion_witness :
    (30 : Nat) < 70 ∧
    ((∃ c, create_vsffms2_chunk extEx100 argsVs 0 "loadscript.vpy" 30 70 = .ok c ∧
      c.frames = 40 ∧
      c.ffmpeg_gen_cmd.get? 7 = some (toString 69) ∧
      c.ffmpeg_gen_cmd =
        ["vspipe", "loadscript.vpy", "-y", "-", "-s", toString 30, "-e", toString 69]) ∧
    (∃ c, create_select_chunk extEx100 argsSel 0 "/video.mkv" 30 70 = .ok c ∧
      c.frames = 40 ∧
      c.ffmpeg_gen_cmd.get? 8 = some (select_vf 30 69) ∧
      select_vf 30 69 =
        "select=between(n\\," ++ toString 30 ++ "\\," ++ toString 69
          ++ "),setpts=PTS-STARTPTS")) :=
  ⟨by decide, c6_end_conversion extEx100 argsSel 0 "loadscript.vpy" "/video.mkv"
    30 70 (by decide)⟩

/-- The index of a segment chunk is the enumeration index it is built with. -/
theorem create_chunk_from_segment_index (E : Ext) (args : Args) (i : Nat)
    (f : SegFile) : (create_chunk_from_segment E args i f).index = i := rfl

/-- C3: `create_encoding_queue` returns the dispatched builder's list sorted
by `size` in non-increasing order; equal-size chunks keep their original
construction order (stability, as filter-equality at every size); and the
sorted queue is a permutation of the built one. -/
theorem c3_queue_sorted_stable (E : Ext) (args : Args) (files : List SegFile)
    (split_locations : List Nat) (l : List Chunk)
    (h : chunk_method_gen E args files split_locations = .ok l) :
    create_encoding_queue E args files split_locations = .ok (pySortDesc l) ∧
    List.Pairwise (fun a b : Chunk => b.size ≤ a.size) (pySortDesc l) ∧
    (∀ n : Nat, (pySortDesc l).filter (fun c => c.size == n) =
      l.filter (fun c => c.size == n)) ∧
    List.Perm (pySortDesc l) l := by
  refine ⟨?_, ?_, ?_, pySortKey_perm _ l⟩
  · unfold create_encoding_queue
    rw [h]
  · have hs := pySortKey_sorted (fun c : Chunk => OrderDual.toDual c.size) l
    exact hs.imp (fun hab => OrderDual.toDual_le_toDual.mp hab)
  · intro n
    refine pySortKey_stable _ l _ ?_
    intro a b ha hb
    have ha2 : a.size = n := by simpa using ha
    have hb2 : b.size = n := by simpa using hb
    exact congrArg OrderDual.toDual (ha2.trans hb2.symm)

/-- C3 witness: the spec's worked example (F = 100, splits [30, 70], frame
counts [30, 40, 30]) sorts to [40, 30, 30] with the tie kept in original
order. -/
theorem c3_queue_sorted_stable_witness :
    chunk_method_gen extEx100 argsVs [] [30, 70] = .ok c3qEx ∧
    create_encoding_queue extEx100 argsVs [] [30, 70] = .ok (pySortDesc c3qEx) ∧
    List.Pairwise (fun a b : Chunk => b.size ≤ a.size) (pySortDesc c3qEx) ∧
    c3qEx.map Chunk.frames = [30, 40, 30] ∧
    (pySortDesc c3qEx).map Chunk.frames = [40, 30, 30] ∧
    (pySortDesc c3qEx).map Chunk.index = [1, 0, 2] := by
  have h := c3_queue_sorted_stable extEx100 argsVs [] [30, 70] c3qEx rfl
  exact ⟨rfl, h.1, h.2.1, rfl, by decide, by decide⟩

/-- C7: the segment builder sorts the `.mkv` listing lexicographically by
stem code points (keeping exactly those files, as the permutation conjunct states),
emits one chunk per file in that order, and errors with `noSegmentsFound`
precisely when the listing has no `.mkv` file. -/
theorem c7_segment_queue (E : Ext) (args : Args) (files : List SegFile) :
    List.Perm (segment_queue_files files)
      (files.filter (fun f => f.suffix == ".mkv")) ∧
    List.Pairwise (fun a b : SegFile => stemKey a.stem ≤ stemKey b.stem)
      (segment_queue_files files) ∧
    create_video_queue_segment E args files =
      (if segment_queue_files files = [] then .error QErr.noSegmentsFound
        else .ok ((segment_queue_files files).enum.map
          (fun p => create_chunk_from_segment E args p.1 p.2))) ∧
    (create_video_queue_segment E args files = .error QErr.noSegmentsFound ↔
      files.filter (fun f => f.suffix == ".mkv") = []) := by
  have hperm := pySortKey_perm (fun f : SegFile => stemKey f.stem)
    (files.filter (fun f => f.suffix == ".mkv"))
  have hsort := pySortKey_sorted (fun f : SegFile => stemKey f.stem)
    (files.filter (fun f => f.suffix == ".mkv"))
  have heq : create_video_queue_segment E args files =
      (if segment_queue_files files = [] then .error QErr.noSegmentsFound
        else .ok ((segment_queue_files files).enum.map
          (fun p => create_chunk_from_segment E args p.1 p.2))) := by
    unfold create_video_queue_segment
    by_cases hq : segment_queue_files files = []
    · simp [hq]
    · simp [hq, List.length_eq_zero, beq_iff_eq]
  refine ⟨hperm, hsort, heq, ?_⟩
  constructor
  · intro h
    by_cases hq : segment_queue_files files = []
    · have hnil : List.Perm ([] : List SegFile)
          (files.filter (fun f => f.suffix == ".mkv")) := hq ▸ hperm
      exact hnil.symm.eq_nil
    · rw [heq, if_neg hq] at h
      exact Except.noConfusion h
  · intro h
    have hq : segment_queue_files files = [] := by
      unfold segment_queue_files
      rw [h]
      rfl
    rw [heq, if_pos hq]

/-- C9: with no explicit output path, `call_vmaf` logs to the path derived
from the chunk's name inside the working directory's split subdirectory,
embeds that path through `shlex.quote` inside the scoring filter string
(token 16 of the downstream command), and returns the very same path. -/
theorem c9_vmaf_log_path (v : VMAF) (divFmt : Nat → String) (chunk : Chunk)
    (encoded : String) (vmaf_rate : Option Nat) :
    (VMAF.call_vmaf v divFmt chunk encoded vmaf_rate none).ret =
      default_fl_path chunk ∧
    default_fl_path chunk =
      chunk.temp ++ "/split/" ++ Chunk.name chunk ++ ".json" ∧
    (VMAF.call_vmaf v divFmt chunk encoded vmaf_rate none).cmd.get? 16 =
      some (v.distorted_str ++ VMAF.ref_str v (vmaf_select_str divFmt vmaf_rate)
        ++ (vmaf_log_pre ++ shlexQuote (default_fl_path chunk)
            ++ v.model ++ v.n_threads)) := by
  exact ⟨rfl, rfl, rfl⟩

/-- C10: in every freshly built queue of each of the three strategies, the
chunk at construction position `i` carries index `i`. -/
theorem c10_indices_enumerated (E : Ext) (args : Args) (split_locations : List Nat)
    (files : List SegFile) :
    IndexedFrom (create_video_queue_vsffms2 E args split_locations) ∧
    IndexedFrom (create_video_queue_select E args split_locations) ∧
    IndexedFrom (create_video_queue_segment E args files) := by
  refine ⟨?_, ?_, ?_⟩
  · exact @indexedFrom_mapME_enum
      (fun i b => create_vsffms2_chunk E args i (load_script_path args) b.1 b.2)
      (fun i b c hc => create_vsffms2_chunk_index hc)
      (vsffms2_boundaries E.frame_probe_input split_locations)
  · intro q h i hi
    unfold create_video_queue_select at h
    cases hsb : select_boundaries E.frame_probe_input split_locations with
    | error e =>
      rw [hsb] at h
      exact Except.noConfusion h
    | ok bs =>
      rw [hsb] at h
      exact @indexedFrom_mapME_enum
        (fun i b => create_select_chunk E args i args.input b.1 b.2)
        (fun i b c hc => create_select_chunk_index hc) bs q h i hi
  · intro q h i hi
    simp only [create_video_queue_segment] at h
    split at h
    · exact Except.noConfusion h
    · injection h with h
      subst h
      simp [List.get_eq_getElem, List.getElem_map, List.getElem_enum,
        create_chunk_from_segment_index]

/-- C10 witness: concrete queues from all three strategies carry contiguous
0-based indices. -/
theorem c10_indices_enumerated_witness :
    create_video_queue_vsffms2 extEx100 argsVs [30] = .ok c10qVsEx ∧
    create_video_queue_select extEx100 argsSel [30] = .ok c10qSelEx ∧
    create_video_queue_segment extEx100 argsSeg segFilesEx = .ok c10qSegEx ∧
    (c10qVsEx.get ⟨1, by decide⟩).index = 1 ∧
    (c10qSelEx.get ⟨0, by decide⟩).index = 0 ∧
    (c10qSegEx.get ⟨1, by decide⟩).index = 1 := by
  have h1 := c10_indices_enumerated extEx100 argsVs [30] segFilesEx
  have h2 := c10_indices_enumerated extEx100 argsSel [30] segFilesEx
  have h3 := c10_indices_enumerated extEx100 argsSeg [] segFilesEx
  exact ⟨rfl, rfl, rfl, h1.1 c10qVsEx rfl 1 (by decide),
    h2.2.1 c10qSelEx rfl 0 (by decide), h3.2.2 c10qSegEx rfl 1 (by decide)⟩

end Av1anSpec
